import Mathlib

/-!
Verification development for the Article-Generation-using-RAG repository
(`app.py`, `rag_utils.py`).  The pure logic of the two source files is
embedded shallowly: external effects (PDF extraction, UTF-8 decoding, the
embedding model, the FAISS search, the ollama service and TextBlob scores)
are supplied as explicit oracle parameters, while every branch, guard,
message string and constant of the repository code is translated verbatim.
-/

set_option maxRecDepth 100000

namespace RAGApp

/-! ## Sentiment analyzer (`rag_utils.analyze_sentiment`)

TextBlob computes the two scalar scores; the repository code only consumes
them.  The scores are therefore taken as rational-number inputs and the
classification logic of `analyze_sentiment` is translated directly. -/

structure SentimentResult where
  sentiment : String
  tone : String
  polarity : ℚ
  subjectivity : ℚ
deriving Repr, DecidableEq

/-- Python `round(x, 2)` on the displayed scores (`rag_utils.py` lines 41-42). -/
def round2 (x : ℚ) : ℚ := (round (100 * x) : ℤ) / 100

/-- Shallow embedding of `analyze_sentiment` (`rag_utils.py` lines 12-43),
parameterised by the polarity and subjectivity scores TextBlob returns. -/
def analyze_sentiment (polarity subjectivity : ℚ) : SentimentResult :=
  let sentiment :=
    if polarity > 0 then "Positive"
    else if polarity < 0 then "Negative"
    else "Neutral"
  let tone :=
    if subjectivity < 3/10 then "Objective"
    else if subjectivity > 7/10 then "Subjective"
    else "Balanced"
  { sentiment := sentiment
    tone := tone
    polarity := round2 polarity
    subjectivity := round2 subjectivity }

/-! ## Chunker

Modelled from the spec: the splitting is performed by the langchain
`RecursiveCharacterTextSplitter`, library code that is not part of this
repository; `rag_utils.create_vector_store` only configures it with
`chunk_size=1000`, `chunk_overlap=200`, `length_function=len`.  Following
spec section 4.2, the splitter is modelled as a fixed-size character
splitter producing chunks of at most 1000 characters in which consecutive
chunks overlap by 200 characters (separator snapping is abstracted away,
as the spec allows under its boundary-snapping tolerance). -/

/-- Number of chunks produced for a text of length `L` (one chunk per
stride of `1000 - 200 = 800` characters while more than 1000 remain). -/
def numChunks (L : Nat) : Nat := (L - 1000 + 799) / 800 + 1

/-- Modelled from the spec: split a character list into chunks of at most
1000 characters, consecutive chunks overlapping by 200 characters. -/
def chunkText (cs : List Char) : List (List Char) :=
  (List.range (numChunks cs.length)).map (fun i => (cs.drop (800 * i)).take 1000)

/-! ## Document ingestion and vector-store build
(`rag_utils.create_vector_store`, lines 57-103)

Each uploaded file is written to a temporary path and then either run
through `process_pdf` (PyPDF2) or decoded as UTF-8, both external effects;
they are modelled by an oracle `extract` mapping the file to either an
error message or the extracted text.  The per-file `try` block re-raises
any extraction failure wrapped in `"Error processing <name>: ..."`; a file
whose text is blank after `strip()` is skipped; a batch producing no
documents raises `"No valid documents were processed"`.  The embedding
model (HuggingFace MiniLM) is an oracle `embed`. -/

structure UploadedFile where
  name : String
deriving Repr, DecidableEq

structure Document where
  page_content : String
  source : String
deriving Repr, DecidableEq

structure Chunk where
  text : List Char
  source : String
deriving Repr, DecidableEq

structure VectorStore where
  entries : List (Chunk × List ℚ)
deriving Repr, DecidableEq

/-- Check whether an `Except` result is an error. -/
def isErr {ε α : Type} : Except ε α → Bool
  | .error _ => true
  | .ok _ => false

/-- Truthiness of Python `text.strip()`: true exactly when the text
contains at least one non-whitespace character. -/
def hasContent (text : String) : Bool := text.data.any (fun c => !c.isWhitespace)

/-- One iteration of the upload loop (`rag_utils.py` lines 62-85): extract
the text of the file; on failure re-raise `"Error processing <name>: ..."`; keep
the file as a `Document` only when its stripped text is non-empty. -/
def processUpload (extract : UploadedFile → Except String String)
    (f : UploadedFile) : Except String (Option Document) :=
  match extract f with
  | .error e => .error ("Error processing " ++ f.name ++ ": " ++ e)
  | .ok text =>
    if hasContent text then .ok (some { page_content := text, source := f.name })
    else .ok none

/-- The upload loop over a whole batch: the first failing file aborts the
loop with its error; blank files contribute nothing. -/
def gatherDocuments (extract : UploadedFile → Except String String) :
    List UploadedFile → Except String (List Document)
  | [] => .ok []
  | f :: rest =>
    match processUpload extract f with
    | .error e => .error e
    | .ok none => gatherDocuments extract rest
    | .ok (some d) => (gatherDocuments extract rest).map (fun ds => d :: ds)

/-- Chunks of one document, each tagged with the originating source name. -/
def chunkDocument (d : Document) : List Chunk :=
  (chunkText d.page_content.data).map (fun cs => { text := cs, source := d.source })

/-- Shallow embedding of `create_vector_store` (`rag_utils.py` lines 57-103):
gather documents (aborting on the first per-file error), fail when none
survive, otherwise chunk every document and embed every chunk. -/
def create_vector_store (extract : UploadedFile → Except String String)
    (embed : List Char → List ℚ) (uploaded_files : List UploadedFile) :
    Except String VectorStore :=
  match gatherDocuments extract uploaded_files with
  | .error e => .error e
  | .ok documents =>
    if documents.isEmpty then .error "No valid documents were processed"
    else .ok { entries :=
      (documents.flatMap chunkDocument).map (fun c => (c, embed c.text)) }

/-! ## Retrieval (`rag_utils.get_rag_response`, lines 105-116)

The FAISS nearest-neighbour search is library code outside this
repository.  Modelled from the spec (section 4.3): the index is a list of
stored chunks, each carrying its distance to the current query under the
metric of the index; a query with parameter `k` returns the `k` closest chunks
ordered by non-decreasing distance (ties broken by insertion order, which
insertion sort preserves).  The repository code fixes `k` to 3 via the
retriever search kwargs. -/

structure ScoredChunk where
  text : String
  source : String
  dist : ℚ
deriving Repr, DecidableEq

/-- Comparison by distance to the query. -/
def distLE (a b : ScoredChunk) : Prop := a.dist ≤ b.dist

instance : DecidableRel distLE := fun a b => inferInstanceAs (Decidable (a.dist ≤ b.dist))

instance : IsTotal ScoredChunk distLE := ⟨fun a b => le_total a.dist b.dist⟩

instance : IsTrans ScoredChunk distLE := ⟨fun _ _ _ h h2 => le_trans h h2⟩

/-- Modelled from the spec: the k-nearest-neighbour query of the vector
store, returning the `k` stored chunks closest to the query. -/
def knnQuery (index : List ScoredChunk) (k : Nat) : List ScoredChunk :=
  (List.insertionSort distLE index).take k

/-- The retrieval parameter the repository passes to the retriever
(`search_kwargs` with `k` set to 3, `rag_utils.py` line 112). -/
def retriever_k : Nat := 3

/-- Shallow embedding of the retrieval performed by `get_rag_response`:
a nearest-neighbour query with the fixed `k` of the repository code. -/
def get_rag_response (index : List ScoredChunk) : List ScoredChunk :=
  knnQuery index retriever_k

/-! ## Prompt composer (`app.generate_prompt`, lines 13-49)

The four style templates are copied verbatim (placeholder braces written
with their escape codes); the Python `str.format` call is embedded as literal
substring replacement of the three placeholders, executed over character
lists so that concrete prompts evaluate inside the kernel. -/

/-- Boolean prefix test on character lists. -/
def isPrefixL : List Char → List Char → Bool
  | [], _ => true
  | _ :: _, [] => false
  | a :: as, b :: bs => a == b && isPrefixL as bs

/-- Boolean substring test on character lists. -/
def containsL (pat : List Char) : List Char → Bool
  | [] => isPrefixL pat []
  | c :: rest => isPrefixL pat (c :: rest) || containsL pat rest

/-- Substring test on strings. -/
def strContains (s pat : String) : Bool := containsL pat.data s.data

/-- Replace every occurrence of `pat` (non-empty) in the input, scanning
left to right; the fuel is the input length, which bounds the recursion. -/
def replaceAux (pat repl : List Char) : Nat → List Char → List Char
  | _, [] => []
  | 0, s => s
  | fuel + 1, c :: rest =>
    if isPrefixL pat (c :: rest) then
      repl ++ replaceAux pat repl fuel (List.drop (pat.length - 1) rest)
    else
      c :: replaceAux pat repl fuel rest

/-- Replace every occurrence of `pat` in `s` by `repl`. -/
def replaceStr (s pat repl : String) : String :=
  if pat.isEmpty then s
  else ⟨replaceAux pat.data repl.data s.data.length s.data⟩

/-- Python `template.format(context=..., input_text=..., no_words=...)`
for templates whose only brace groups are the three placeholders. -/
def pyFormat (template context input_text no_words : String) : String :=
  replaceStr (replaceStr (replaceStr template "\x7bcontext\x7d" context)
    "\x7binput_text\x7d" input_text) "\x7bno_words\x7d" no_words

/-- The `style_prompts` dictionary (`app.py` lines 15-43); lookup of an
unknown key raises `KeyError`, embedded as `none`. -/
def style_prompts : String → Option String
  | "Academic" => some "You are a scholarly writer with expertise in academic writing. \n            Using the following context: \x7bcontext\x7d\n            Write a well-researched article about: \x7binput_text\x7d\n            Include relevant technical details and cite theoretical frameworks where applicable.\n            The response should be approximately \x7bno_words\x7d words.\n            Focus on methodology, findings, and academic implications."
  | "Technical" => some "You are a technical expert writing for professionals.\n            Using the following context: \x7bcontext\x7d\n            Create a technical article about: \x7binput_text\x7d\n            Include relevant technical concepts, methodologies, and practical implementations.\n            The response should be approximately \x7bno_words\x7d words.\n            Focus on technical accuracy and actionable insights."
  | "Conversational" => some "You are a skilled writer creating content for a general audience.\n            Using the following context: \x7bcontext\x7d\n            Write an engaging and accessible article about: \x7binput_text\x7d\n            Explain complex concepts in simple terms and use relatable examples.\n            The response should be approximately \x7bno_words\x7d words.\n            Focus on clarity and practical applications."
  | "Journalistic" => some "You are a professional journalist.\n            Using the following context: \x7bcontext\x7d\n            Write a well-balanced news article about: \x7binput_text\x7d\n            Present facts objectively and include relevant quotes or references.\n            The response should be approximately \x7bno_words\x7d words.\n            Focus on clarity, accuracy, and newsworthiness."
  | _ => none

/-- The four recognized writing styles, in dictionary order. -/
def recognizedStyles : List String :=
  ["Academic", "Technical", "Conversational", "Journalistic"]

/-- Shallow embedding of `generate_prompt` (`app.py` lines 13-49): style
lookup followed by placeholder substitution. -/
def generate_prompt (context input_text : String) (no_words : Nat)
    (writing_style : String) : Option String :=
  (style_prompts writing_style).map
    (fun t => pyFormat t context input_text (toString no_words))

/-! ## Generation options (`app.getLLamaresponse`, lines 89-97) -/

structure GenOptions where
  temperature : ℚ
  top_p : ℚ
  num_tokens : Nat
deriving Repr, DecidableEq

/-- The decoding options the repository passes to `ollama.generate`
(`app.py` lines 92-96): `temperature` 0.7, `top_p` 0.9, and
`num_tokens = int(no_words) * 4`. -/
def generateOptions (no_words : Nat) : GenOptions :=
  { temperature := 0.7, top_p := 0.9, num_tokens := no_words * 4 }

/-! ## Orchestrator (`app.getLLamaresponse` and the upload handler)

Session state is the pair (`st.session_state.vector_store`,
`st.session_state.chat_history`).  The external calls of one generation
run — the two `ollama.list()` calls, the `RetrievalQA` chain, the
`ollama.generate` call, the TextBlob scoring, and `datetime.now()` — are
supplied by an environment record; each branch of the Python code is
translated in order, and every exception path returns the triple of
`None`s with the state untouched. -/

structure HistoryEntry where
  timestamp : String
  input : String
  style : String
  words : Nat
  output : String
  sentiment : SentimentResult
  sources : Option (List String)
deriving Repr, DecidableEq

structure AppState where
  vector_store : Option VectorStore
  chat_history : List HistoryEntry
deriving Repr, DecidableEq

structure Env where
  serviceListing : Except String (List String)
  ragResult : Except String (String × List String)
  genResult : String → GenOptions → Except String String
  sentimentScores : String → Except String (ℚ × ℚ)
  now : String

/-- Shallow embedding of `getLLamaresponse` (`app.py` lines 51-116).
Returns the updated session state together with the returned triple
(`some` on success, `none` for every error return of the Python code). -/
def getLLamaresponse (env : Env) (st : AppState) (input_text : String)
    (no_words : Nat) (writing_style : String) (use_rag : Bool) :
    AppState × Option (String × List String × SentimentResult) :=
  match env.serviceListing with
  | .error _ => (st, none)
  | .ok models =>
    if "llama3.2:latest" ∉ models then (st, none)
    else
      let ctxSources : Except String (String × List String) :=
        if use_rag && st.vector_store.isSome then env.ragResult
        else .ok ("", [])
      match ctxSources with
      | .error _ => (st, none)
      | .ok (context, sources) =>
        match generate_prompt context input_text no_words writing_style with
        | none => (st, none)
        | some prompt =>
          match env.genResult prompt (generateOptions no_words) with
          | .error _ => (st, none)
          | .ok response =>
            match env.sentimentScores response with
            | .error _ => (st, none)
            | .ok (p, s) =>
              let sa := analyze_sentiment p s
              let entry : HistoryEntry :=
                { timestamp := env.now
                  input := input_text
                  style := writing_style
                  words := no_words
                  output := response
                  sentiment := sa
                  sources := if sources.isEmpty then none else some sources }
              ({ st with chat_history := st.chat_history ++ [entry] },
                some (response, sources, sa))

/-- Shallow embedding of the document-upload handler (`app.py` lines
140-147): on success the session vector store is replaced wholesale; on
any exception the handler except-branch sets it to `None`. -/
def uploadHandler (extract : UploadedFile → Except String String)
    (embed : List Char → List ℚ) (uploaded_files : List UploadedFile)
    (st : AppState) : AppState :=
  match create_vector_store extract embed uploaded_files with
  | .ok vs => { st with vector_store := some vs }
  | .error _ => { st with vector_store := none }

/-! ## Concrete inputs used by witnesses and counterexamples -/

/-- A tiny chunk standing for content of a previously indexed batch. -/
def oldChunk : Chunk := { text := ['h', 'i'], source := "old.txt" }

/-- A vector store left over from a previous successful build. -/
def oldStore : VectorStore := { entries := [(oldChunk, [1])] }

/-- A file whose extracted text is pure whitespace. -/
def blankFile : UploadedFile := { name := "blank.txt" }

/-- A corrupt PDF: extraction fails. -/
def corruptPdf : UploadedFile := { name := "bad.pdf" }

/-- A valid text file. -/
def validTxt : UploadedFile := { name := "good.txt" }

/-- A concrete extraction oracle: `bad.pdf` fails, `blank.txt` yields
whitespace, every other file yields `"hello world"`. -/
def sampleExtract : UploadedFile → Except String String := fun f =>
  if f.name = "bad.pdf" then .error "EOF marker not found"
  else if f.name = "blank.txt" then .ok "   \n"
  else .ok "hello world"

/-- A trivial embedding oracle. -/
def zeroEmbed : List Char → List ℚ := fun _ => [0]

/-- A session that already holds a previously built index. -/
def indexedState : AppState := { vector_store := some oldStore, chat_history := [] }

/-- An environment in which the generation service is unreachable. -/
def downEnv : Env :=
  { serviceListing := .error "connection refused"
    ragResult := .ok ("", [])
    genResult := fun _ _ => .ok ""
    sentimentScores := fun _ => .ok (0, 0)
    now := "2026-01-01 00:00:00" }

/-- A concrete index of five stored chunks. -/
def sampleIndex : List ScoredChunk :=
  [⟨"c1", "a.txt", 5⟩, ⟨"c2", "a.txt", 2⟩, ⟨"c3", "a.txt", 4⟩,
    ⟨"c4", "a.txt", 1⟩, ⟨"c5", "a.txt", 3⟩]

/-! ## Helper lemmas shared by the build theorems -/

/-- A batch containing a file whose extraction fails makes the gathering
loop fail. -/
theorem gatherDocuments_isErr (extract : UploadedFile → Except String String) :
    ∀ files : List UploadedFile, (∃ f ∈ files, isErr (extract f) = true) →
      isErr (gatherDocuments extract files) = true := by
  intro files
  induction files with
  | nil => rintro ⟨f, hf, _⟩; simp at hf
  | cons f rest ih =>
    rintro ⟨g, hg, hgerr⟩
    simp only [List.mem_cons] at hg
    unfold gatherDocuments processUpload
    rcases he : extract f with e | text
    · simp [isErr]
    · rcases hg with rfl | hg
      · rw [he] at hgerr; simp [isErr] at hgerr
      · have hrest := ih ⟨g, hg, hgerr⟩
        rcases hgd : gatherDocuments extract rest with e2 | ds
        · by_cases hc : hasContent text <;> simp [hc, hgd, isErr, Except.map]
        · rw [hgd] at hrest; simp [isErr] at hrest

/-- A batch in which every file extracts successfully but yields only
whitespace gathers no documents and reports no error. -/
theorem gatherDocuments_blank (extract : UploadedFile → Except String String) :
    ∀ files : List UploadedFile,
      (∀ f ∈ files, ∃ t, extract f = .ok t ∧ hasContent t = false) →
      gatherDocuments extract files = .ok [] := by
  intro files
  induction files with
  | nil => intro _; rfl
  | cons f rest ih =>
    intro h
    obtain ⟨t, ht, hc⟩ := h f (by simp)
    unfold gatherDocuments processUpload
    rw [ht]
    simp only [hc, Bool.false_eq_true, if_false]
    exact ih (fun g hg => h g (by simp [hg]))

/-! ## Claim theorems -/

/-- C1 (counterexample): the claim that a failed document-batch build
leaves a previously built index present and unchanged is false.  Starting
from a session holding the index `oldStore`, uploading a batch consisting
of one whitespace-only file makes `create_vector_store` raise, and the
handler then stores `None`: the previously built index is gone. -/
theorem upload_failure_clears_index_counterexample :
    indexedState.vector_store = some oldStore ∧
    isErr (create_vector_store sampleExtract zeroEmbed [blankFile]) = true ∧
    (uploadHandler sampleExtract zeroEmbed [blankFile] indexedState).vector_store ≠
      indexedState.vector_store := by
  refine ⟨rfl, rfl, ?_⟩
  decide

/-- C1 (amended): after any failed document-batch build the session index
is cleared to `None` — regardless of the prior state — while the
generation history is left unchanged. -/
theorem upload_failure_clears_index (extract : UploadedFile → Except String String)
    (embed : List Char → List ℚ) (files : List UploadedFile) (st : AppState)
    (h : isErr (create_vector_store extract embed files) = true) :
    (uploadHandler extract embed files st).vector_store = none ∧
    (uploadHandler extract embed files st).chat_history = st.chat_history := by
  unfold uploadHandler
  rcases hc : create_vector_store extract embed files with e | vs
  · simp
  · rw [hc] at h; simp [isErr] at h

/-- C1 (witness): the amended theorem applied to the concrete failing
batch `[blankFile]` over a session holding an index. -/
theorem upload_failure_clears_index_witness :
    isErr (create_vector_store sampleExtract zeroEmbed [blankFile]) = true ∧
    (uploadHandler sampleExtract zeroEmbed [blankFile] indexedState).vector_store = none ∧
    (uploadHandler sampleExtract zeroEmbed [blankFile] indexedState).chat_history =
      indexedState.chat_history :=
  ⟨rfl, upload_failure_clears_index sampleExtract zeroEmbed [blankFile] indexedState rfl⟩

/-- C2 (counterexample): the claim that a batch mixing one corrupt and one
valid file builds an index from the valid file while reporting the corrupt
file per-file is false: the build aborts with the error of the corrupt
file and produces no index at all. -/
theorem batch_error_aborts_build_counterexample :
    sampleExtract corruptPdf = .error "EOF marker not found" ∧
    sampleExtract validTxt = .ok "hello world" ∧
    create_vector_store sampleExtract zeroEmbed [corruptPdf, validTxt] =
      .error "Error processing bad.pdf: EOF marker not found" :=
  ⟨rfl, rfl, rfl⟩

/-- C2 (amended): any batch containing a file whose extraction or decoding
fails makes the whole vector-store build fail; the other files are not
processed into an index. -/
theorem batch_error_aborts_build (extract : UploadedFile → Except String String)
    (embed : List Char → List ℚ) (files : List UploadedFile)
    (h : ∃ f ∈ files, isErr (extract f) = true) :
    isErr (create_vector_store extract embed files) = true := by
  unfold create_vector_store
  have hgerr := gatherDocuments_isErr extract files h
  rcases hgd : gatherDocuments extract files with e | ds
  · simp [isErr]
  · rw [hgd] at hgerr; simp [isErr] at hgerr

/-- C2 (witness): the amended theorem applied to the concrete mixed batch
`[corruptPdf, validTxt]`. -/
theorem batch_error_aborts_build_witness :
    (∃ f ∈ [corruptPdf, validTxt], isErr (sampleExtract f) = true) ∧
    isErr (create_vector_store sampleExtract zeroEmbed [corruptPdf, validTxt]) = true :=
  ⟨⟨corruptPdf, by decide, rfl⟩,
    batch_error_aborts_build sampleExtract zeroEmbed [corruptPdf, validTxt]
      ⟨corruptPdf, by decide, rfl⟩⟩

/-- C3: for every environment and session, `getLLamaresponse` leaves the
session state untouched whenever it returns the failure triple, and it
appends exactly one history entry exactly when it returns successfully. -/
theorem getLLamaresponse_history (env : Env) (st : AppState) (input_text : String)
    (no_words : Nat) (writing_style : String) (use_rag : Bool) :
    ((getLLamaresponse env st input_text no_words writing_style use_rag).2 = none →
      (getLLamaresponse env st input_text no_words writing_style use_rag).1 = st) ∧
    ((getLLamaresponse env st input_text no_words writing_style use_rag).2.isSome = true ↔
      (getLLamaresponse env st input_text no_words writing_style use_rag).1.chat_history.length =
        st.chat_history.length + 1) := by
  unfold getLLamaresponse
  rcases env.serviceListing with e | models
  · simp
  · simp only []
    split
    · simp
    · split
      · simp
      · split
        · simp
        · split
          · simp
          · split
            · simp
            · simp

/-- C3 (witness): with the service unreachable the run fails and the
session — including its history — is exactly the prior state. -/
theorem getLLamaresponse_history_witness :
    (getLLamaresponse downEnv indexedState "Cats" 500 "Technical" false).2 = none ∧
    (getLLamaresponse downEnv indexedState "Cats" 500 "Technical" false).1 = indexedState :=
  ⟨rfl, (getLLamaresponse_history downEnv indexedState "Cats" 500 "Technical" false).1 rfl⟩

/-- C4: `analyze_sentiment` labels the sentiment Positive exactly when the
polarity is positive, Negative exactly when negative, Neutral exactly at
zero; it labels the tone Objective exactly when subjectivity is below 0.3,
Subjective exactly when above 0.7, Balanced otherwise, and both boundary
values 0.3 and 0.7 map to Balanced. -/
theorem analyze_sentiment_classification (p s : ℚ) :
    ((analyze_sentiment p s).sentiment = "Positive" ↔ 0 < p) ∧
    ((analyze_sentiment p s).sentiment = "Negative" ↔ p < 0) ∧
    ((analyze_sentiment p s).sentiment = "Neutral" ↔ p = 0) ∧
    ((analyze_sentiment p s).tone = "Objective" ↔ s < 3/10) ∧
    ((analyze_sentiment p s).tone = "Subjective" ↔ 7/10 < s) ∧
    ((analyze_sentiment p s).tone = "Balanced" ↔ 3/10 ≤ s ∧ s ≤ 7/10) ∧
    (analyze_sentiment p (3/10)).tone = "Balanced" ∧
    (analyze_sentiment p (7/10)).tone = "Balanced" := by
  unfold analyze_sentiment
  refine ⟨?_, ?_, ?_, ?_, ?_, ?_, ?_, ?_⟩ <;>
    (simp only []; split_ifs <;> simp_all) <;> norm_num <;> try linarith

/-- C5: a text of at most 1000 characters yields exactly one chunk equal
to the whole text; every chunk has at most 1000 characters; and any two
consecutive chunks overlap in exactly 200 characters (the last 200
characters of a chunk are the first 200 of its successor). -/
theorem chunkText_spec (cs : List Char) :
    (cs.length ≤ 1000 → chunkText cs = [cs]) ∧
    (∀ c ∈ chunkText cs, c.length ≤ 1000) ∧
    (∀ i : Nat, ∀ hi : i + 1 < (chunkText cs).length,
      ((chunkText cs).get ⟨i, Nat.lt_of_succ_lt hi⟩).drop 800 =
        ((chunkText cs).get ⟨i + 1, hi⟩).take 200 ∧
      (((chunkText cs).get ⟨i, Nat.lt_of_succ_lt hi⟩).drop 800).length = 200) := by
  have hget : ∀ j (hj : j < (chunkText cs).length),
      (chunkText cs).get ⟨j, hj⟩ = (cs.drop (800 * j)).take 1000 := by
    intro j hj
    simp [chunkText, List.get_eq_getElem, List.getElem_map, List.getElem_range]
  refine ⟨?_, ?_, ?_⟩
  · intro h
    have h0 : cs.length - 1000 = 0 := Nat.sub_eq_zero_of_le h
    have hn : numChunks cs.length = 1 := by unfold numChunks; rw [h0]
    simp [chunkText, hn, List.range_succ, List.take_of_length_le h]
  · intro c hc
    simp only [chunkText, List.mem_map, List.mem_range] at hc
    obtain ⟨i, _, rfl⟩ := hc
    rw [List.length_take]
    exact min_le_left _ _
  · intro i hi
    have hlen : (chunkText cs).length = numChunks cs.length := by
      simp [chunkText]
    rw [hlen] at hi
    have hdiv : i + 1 ≤ (cs.length - 1000 + 799) / 800 := by
      unfold numChunks at hi; omega
    have hmul : (i + 1) * 800 ≤ cs.length - 1000 + 799 :=
      (Nat.le_div_iff_mul_le (by norm_num)).mp hdiv
    have hL : 1001 ≤ cs.length := by omega
    have hbound : 800 * (i + 1) + 201 ≤ cs.length := by omega
    rw [hget i (Nat.lt_of_succ_lt (hlen ▸ hi)), hget (i + 1) (hlen ▸ hi)]
    constructor
    · rw [List.drop_take, List.drop_drop, List.take_take]
      norm_num
      congr 1
    · rw [List.drop_take, List.length_take, List.length_drop, List.length_drop]
      omega

/-- C5 (witness): the theorem applied to a 500-character text, which
yields a single chunk, and to a 1500-character text, whose first two
chunks overlap in exactly 200 characters. -/
theorem chunkText_spec_witness :
    ((List.replicate 500 'a').length ≤ 1000 ∧
      chunkText (List.replicate 500 'a') = [List.replicate 500 'a']) ∧
    (0 + 1 < (chunkText (List.replicate 1500 'a')).length ∧
      ((chunkText (List.replicate 1500 'a')).get ⟨0, by decide⟩).drop 800 =
        ((chunkText (List.replicate 1500 'a')).get ⟨0 + 1, by decide⟩).take 200 ∧
      (((chunkText (List.replicate 1500 'a')).get ⟨0, by decide⟩).drop 800).length = 200) := by
  have h1 := (chunkText_spec (List.replicate 500 'a')).1 (by decide)
  have h2 := (chunkText_spec (List.replicate 1500 'a')).2.2 0 (by decide)
  exact ⟨⟨by decide, h1⟩, by decide, h2.1, h2.2⟩

/-- C6: the retrieval of `get_rag_response` uses `k = 3`; a query against
an index of five stored chunks returns exactly three passages ordered by
non-decreasing distance; and whenever `k` is at least the number of stored
chunks the query returns all of them. -/
theorem retrieval_spec :
    (∀ index : List ScoredChunk, get_rag_response index = knnQuery index 3) ∧
    (∀ index : List ScoredChunk, index.length = 5 →
      (knnQuery index 3).length = 3 ∧ (knnQuery index 3).Sorted distLE) ∧
    (∀ (index : List ScoredChunk) (k : Nat), index.length ≤ k →
      (knnQuery index k).Perm index) := by
  refine ⟨fun _ => rfl, ?_, ?_⟩
  · intro index h5
    constructor
    · rw [knnQuery, List.length_take, (List.perm_insertionSort distLE index).length_eq, h5]
      rfl
    · exact (List.sorted_insertionSort distLE index).sublist (List.take_sublist 3 _)
  · intro index k hk
    rw [knnQuery, List.take_of_length_le
      (by rw [(List.perm_insertionSort distLE index).length_eq]; exact hk)]
    exact List.perm_insertionSort distLE index

/-- C6 (witness): the theorem applied to the concrete five-chunk index,
with `k = 3` and with `k = 10`. -/
theorem retrieval_spec_witness :
    sampleIndex.length = 5 ∧
    ((knnQuery sampleIndex 3).length = 3 ∧ (knnQuery sampleIndex 3).Sorted distLE) ∧
    (sampleIndex.length ≤ 10 ∧ (knnQuery sampleIndex 10).Perm sampleIndex) :=
  ⟨rfl, retrieval_spec.2.1 sampleIndex rfl,
    by decide, retrieval_spec.2.2 sampleIndex 10 (by decide)⟩

/-- C7: composing the Technical style with empty context, topic "Cats" and
word count 500 yields a prompt containing the literal substrings "Cats"
and "500" with no placeholder braces left; and every one of the four
recognized styles renders with empty context through the same
lookup-and-substitute path. -/
theorem generate_prompt_renders :
    (∃ p, generate_prompt "" "Cats" 500 "Technical" = some p ∧
      strContains p "Cats" = true ∧ strContains p "500" = true ∧
      strContains p "\x7b" = false ∧ strContains p "\x7d" = false) ∧
    (∀ style ∈ recognizedStyles, ∀ (topic : String) (w : Nat),
      ∃ t, style_prompts style = some t ∧
        generate_prompt "" topic w style = some (pyFormat t "" topic (toString w))) := by
  constructor
  · refine ⟨_, rfl, ?_, ?_, ?_, ?_⟩ <;> decide
  · intro style hstyle topic w
    simp only [recognizedStyles, List.mem_cons, List.not_mem_nil, or_false] at hstyle
    rcases hstyle with rfl | rfl | rfl | rfl <;> exact ⟨_, rfl, rfl⟩

/-- C7 (witness): the second part of the theorem applied to the Academic
style with empty context. -/
theorem generate_prompt_renders_witness :
    ("Academic" ∈ recognizedStyles) ∧
    (∃ t, style_prompts "Academic" = some t ∧
      generate_prompt "" "Dogs" 300 "Academic" = some (pyFormat t "" "Dogs" (toString 300))) :=
  ⟨by decide, generate_prompt_renders.2 "Academic" (by decide) "Dogs" 300⟩

/-- C8 (counterexample): the claim that every batch with zero successfully
processed documents fails with the no-valid-documents error is false: a
batch consisting of one corrupt file processes zero documents but fails
with the per-file extraction error instead. -/
theorem no_valid_documents_error_counterexample :
    (∀ f ∈ [corruptPdf], isErr (sampleExtract f) = true) ∧
    create_vector_store sampleExtract zeroEmbed [corruptPdf] =
      .error "Error processing bad.pdf: EOF marker not found" ∧
    "Error processing bad.pdf: EOF marker not found" ≠ "No valid documents were processed" :=
  ⟨by decide, rfl, by decide⟩

/-- C8 (amended): every batch in which all files extract without raising
but none yields non-whitespace text fails with the fatal
"No valid documents were processed" error, producing no index; a batch in
which a file raises fails with that file's wrapped error instead. -/
theorem no_valid_documents_error (extract : UploadedFile → Except String String)
    (embed : List Char → List ℚ) (files : List UploadedFile)
    (h : ∀ f ∈ files, ∃ t, extract f = .ok t ∧ hasContent t = false) :
    create_vector_store extract embed files = .error "No valid documents were processed" := by
  unfold create_vector_store
  rw [gatherDocuments_blank extract files h]
  rfl

/-- C8 (witness): the amended theorem applied to the concrete batch
holding one whitespace-only file. -/
theorem no_valid_documents_error_witness :
    (∀ f ∈ [blankFile], ∃ t, sampleExtract f = .ok t ∧ hasContent t = false) ∧
    create_vector_store sampleExtract zeroEmbed [blankFile] =
      .error "No valid documents were processed" := by
  have hall : ∀ f ∈ [blankFile], ∃ t, sampleExtract f = .ok t ∧ hasContent t = false := by
    intro f hf
    simp only [List.mem_singleton] at hf
    subst hf
    exact ⟨"   \n", rfl, rfl⟩
  exact ⟨hall, no_valid_documents_error sampleExtract zeroEmbed [blankFile] hall⟩

/-- C9: for every target word count the decoding options passed to the
text-completion service are temperature 0.7, nucleus-sampling threshold
0.9, and a token budget of four times the word count. -/
theorem generate_options_values (no_words : Nat) :
    (generateOptions no_words).temperature = 7/10 ∧
    (generateOptions no_words).top_p = 9/10 ∧
    (generateOptions no_words).num_tokens = no_words * 4 := by
  refine ⟨?_, ?_, rfl⟩ <;> norm_num [generateOptions]

/-- C10: a file that extracts successfully but contains only whitespace is
silently excluded — its processing yields no document and no error, a
batch keeps the same build result with or without it — and a batch made
only of such files fails with the fatal no-valid-documents error. -/
theorem blank_file_silently_excluded (extract : UploadedFile → Except String String)
    (embed : List Char → List ℚ) (f : UploadedFile) (rest files : List UploadedFile)
    (hf : ∃ t, extract f = .ok t ∧ hasContent t = false)
    (hall : ∀ g ∈ files, ∃ t, extract g = .ok t ∧ hasContent t = false) :
    processUpload extract f = .ok none ∧
    create_vector_store extract embed (f :: rest) = create_vector_store extract embed rest ∧
    gatherDocuments extract files = .ok [] ∧
    create_vector_store extract embed files = .error "No valid documents were processed" := by
  obtain ⟨t, ht, hc⟩ := hf
  have hpu : processUpload extract f = .ok none := by
    unfold processUpload
    rw [ht]
    simp [hc]
  refine ⟨hpu, ?_, gatherDocuments_blank extract files hall, ?_⟩
  · have hstep : gatherDocuments extract (f :: rest) = gatherDocuments extract rest := by
      simp only [gatherDocuments, hpu]
    unfold create_vector_store
    rw [hstep]
  · unfold create_vector_store
    rw [gatherDocuments_blank extract files hall]
    rfl

/-- C10 (witness): the theorem applied to the concrete whitespace-only
file, alone and in front of a valid file. -/
theorem blank_file_silently_excluded_witness :
    (∃ t, sampleExtract blankFile = .ok t ∧ hasContent t = false) ∧
    processUpload sampleExtract blankFile = .ok none ∧
    create_vector_store sampleExtract zeroEmbed [blankFile, validTxt] =
      create_vector_store sampleExtract zeroEmbed [validTxt] ∧
    gatherDocuments sampleExtract [blankFile] = .ok [] ∧
    create_vector_store sampleExtract zeroEmbed [blankFile] =
      .error "No valid documents were processed" := by
  have hf : ∃ t, sampleExtract blankFile = .ok t ∧ hasContent t = false := ⟨"   \n", rfl, rfl⟩
  have hall : ∀ g ∈ [blankFile], ∃ t, sampleExtract g = .ok t ∧ hasContent t = false := by
    intro g hg
    simp only [List.mem_singleton] at hg
    subst hg
    exact ⟨"   \n", rfl, rfl⟩
  exact ⟨hf, blank_file_silently_excluded sampleExtract zeroEmbed blankFile [validTxt]
    [blankFile] hf hall⟩

end RAGApp
